import Mathlib

/-!
Verification of the JeevanFit analytic core.

Shallow embedding of the deterministic scoring and statistical
pattern-detection engine of the JeevanFit repository:

* `jeevanfit/analyzers/trend_analyzer.py` — trend detection
  (`TrendAnalyzer._detect_pattern`), change-point detection
  (`TrendAnalyzer._detect_significant_change`), pairwise correlation
  (`TrendAnalyzer.detect_correlations` with `_align_time_series`,
  `_calculate_correlation`, `_assess_causality`);
* `jeevanfit/analyzers/food_classifier.py` — `FoodClassifier`;
* `jeevanfit/analyzers/water_retention_predictor.py` — `WaterRetentionPredictor`.

Modelling conventions:

* Python floats are modelled as `ℚ`.  All arithmetic the analyzers perform is
  field arithmetic plus `math`-free helpers, except `statistics.stdev`, whose
  square root is handled exactly as explained at `StrengthRep` and
  `detect_pattern`.
* `datetime` timestamps are modelled as `ℕ`: the analyzers only use equality,
  hashing and ordering of timestamps.
* Python `dict`s built by comprehension are modelled by `buildDict`
  (left-to-right fold, so a later duplicate key overwrites an earlier one),
  and `sorted(set(..) & set(..))` by `commonTimestamps`.
* Python's `statistics.mean`/`statistics.stdev` compute exact fraction
  arithmetic internally, so `ℚ` is a faithful model of the values the code
  compares (the final float conversion only matters for rendering).
-/

/-! ## Data model of `trend_analyzer.py` -/

/-- A `datetime` key; the analyzers use only equality and ordering of them. -/
abbrev Timestamp := ℕ

/-- One `(timestamp, value)` pair of a metric's time series. -/
abbrev TimePoint := Timestamp × ℚ

/-- Model of `List[Tuple[datetime, float]]` — a metric's time series. -/
abbrev TimeSeries := List TimePoint

/-- Model of `TrendType(str, Enum)` of `trend_analyzer.py`. -/
inductive TrendType where
  | increasing
  | decreasing
  | stable
  | cyclical
deriving DecidableEq

/-- Model of `.value` of a `TrendType` member. -/
def TrendType.value : TrendType → String
  | .increasing => "increasing"
  | .decreasing => "decreasing"
  | .stable => "stable"
  | .cyclical => "cyclical"

/-- Model of `CausalityLevel(str, Enum)` of `trend_analyzer.py`. -/
inductive CausalityLevel where
  | likely
  | possible
  | unlikely
deriving DecidableEq

/-- Model of `Pattern` model of `trend_analyzer.py` (the `time_range` field is the
pair of `datetime`s passed through unchanged). -/
structure Pattern where
  metric : String
  trend : TrendType
  confidence : ℚ
  description : String
  time_range : Timestamp × Timestamp
deriving DecidableEq

/-- Exact representation of the value produced by
`TrendAnalyzer._calculate_correlation`.  The Python code computes
`numerator / (std1 * std2 * n)` where `std1`, `std2` are sample standard
deviations (square roots of rationals, hence in general irrational).  The
represented correlation value is `num / √den2`, where

* `num`   is the Python `numerator` `Σ (x_i − x̄)(y_i − ȳ)`, and
* `den2`  is the square `(std1 * std2 * n)² = var1 * var2 * n²`
  of the Python denominator, which is rational.

The code's early `return 0.0` paths are represented by `⟨0, 1⟩`
(`0 / √1 = 0`).  Every output has `den2 > 0`, and every comparison the code
performs on the correlation value is encoded below in exactly equivalent
squared form (`StrengthRep.absLtQ`, `StrengthRep.gtQ`, `StrengthRep.eqQ`,
and the inlined tests of `detect_correlations`/`assess_causality`). -/
structure StrengthRep where
  num : ℚ
  den2 : ℚ
deriving DecidableEq

/-- Model of `|num / √den2| < q`, for `0 ≤ q` and `0 < den2`:
squaring the nonnegative inequality `|num| < q·√den2` gives
`num² < q²·den2`, and squaring is strictly monotone on nonnegatives,
so the encoding is exact. -/
def StrengthRep.absLtQ (s : StrengthRep) (q : ℚ) : Prop :=
  s.num ^ 2 < q ^ 2 * s.den2

/-- Model of `|num / √den2| > q`, for `0 ≤ q` and `0 < den2`: squared form, exact for
the same reason as `absLtQ`. -/
def StrengthRep.absGtQ (s : StrengthRep) (q : ℚ) : Prop :=
  q ^ 2 * s.den2 < s.num ^ 2

/-- Model of `num / √den2 > q`, for `0 ≤ q` and `0 < den2`: the value is positive,
and its square exceeds `q²`.  Exact for the same reason as `absLtQ`. -/
def StrengthRep.gtQ (s : StrengthRep) (q : ℚ) : Prop :=
  0 < s.num ∧ q ^ 2 * s.den2 < s.num ^ 2

instance (s : StrengthRep) (q : ℚ) : Decidable (s.absLtQ q) := by
  unfold StrengthRep.absLtQ; infer_instance

instance (s : StrengthRep) (q : ℚ) : Decidable (s.absGtQ q) := by
  unfold StrengthRep.absGtQ; infer_instance

instance (s : StrengthRep) (q : ℚ) : Decidable (s.gtQ q) := by
  unfold StrengthRep.gtQ; infer_instance

/-- Model of `num / √den2 = q`, for `0 ≤ q` and `0 < den2`: the value is nonnegative
and its square equals `q²·den2`.  Exact for the same reason as `absLtQ`. -/
def StrengthRep.eqQ (s : StrengthRep) (q : ℚ) : Prop :=
  0 ≤ s.num ∧ s.num ^ 2 = q ^ 2 * s.den2

instance (s : StrengthRep) (q : ℚ) : Decidable (s.eqQ q) := by
  unfold StrengthRep.eqQ; infer_instance

/-- Model of `Correlation` model of `trend_analyzer.py`; `strength` is the exact
representation of the float the code stores. -/
structure Correlation where
  metric1 : String
  metric2 : String
  strength : StrengthRep
  description : String
  causality : CausalityLevel
deriving DecidableEq

/-- Model of `Change` model of `trend_analyzer.py`. -/
structure Change where
  metric : String
  change_point : Timestamp
  magnitude : ℚ
  description : String
  possible_causes : List String
deriving DecidableEq

/-! ## Statistics helpers -/

/-- Model of `statistics.mean`: the arithmetic mean of a list (exact fraction
arithmetic in Python's implementation). -/
def mean (l : List ℚ) : ℚ := l.sum / (l.length : ℚ)

/-- The square of `statistics.stdev` (the sample standard deviation):
`Σ (x − x̄)² / (n − 1)`.  The code only ever uses `stdev` inside comparisons
that are encoded in squared form, so the square root itself never needs to
be represented. -/
def sampleVar (l : List ℚ) : ℚ :=
  ((l.map fun v => (v - mean l) ^ 2).sum) / ((l.length : ℚ) - 1)

/-- Model of `x = list(range(n))` of `_detect_pattern`, as rationals. -/
def indexList (n : ℕ) : List ℚ := (List.range n).map fun i : ℕ => (i : ℚ)

/-- Model of `numerator = sum((x[i] - mean_x) * (values[i] - mean_y) ...)`
of `_detect_pattern`. -/
def olsNumerator (values : List ℚ) : ℚ :=
  let xs := indexList values.length
  let mean_x := mean xs
  let mean_y := mean values
  ((xs.zip values).map fun p => (p.1 - mean_x) * (p.2 - mean_y)).sum

/-- Model of `denominator = sum((x[i] - mean_x) ** 2 ...)` of `_detect_pattern`. -/
def olsDenominator (values : List ℚ) : ℚ :=
  let xs := indexList values.length
  let mean_x := mean xs
  (xs.map fun xi => (xi - mean_x) ^ 2).sum

/-- Model of `ss_tot = sum((v - mean_y) ** 2 for v in values)`. -/
def ssTot (values : List ℚ) : ℚ :=
  let mean_y := mean values
  (values.map fun v => (v - mean_y) ^ 2).sum

/-- Model of `ss_res = sum((values[i] - predicted[i]) ** 2 ...)` where
`predicted[i] = mean_y + slope * (i - mean_x)`. -/
def ssRes (values : List ℚ) (slope : ℚ) : ℚ :=
  let xs := indexList values.length
  let mean_x := mean xs
  let mean_y := mean values
  ((xs.zip values).map fun p => (p.2 - (mean_y + slope * (p.1 - mean_x))) ^ 2).sum

/-- The description template of `_detect_pattern`:
`f"The {metric} shows a {trend.value} trend over the analyzed period"`. -/
def patternDesc (metric trendStr : String) : String :=
  s!"The {metric} shows a {trendStr} trend over the analyzed period"

/-- The description template of `_detect_significant_change`:
`f"{metric} {direction} by {pct_change}% from baseline"`. -/
def changeDesc (metric direction : String) (pct_change : ℤ) : String :=
  s!"{metric} {direction} by {pct_change}% from baseline"

/-- The description template of `detect_correlations`: `f"A {strength_desc}
{direction} correlation exists between {metric1} and {metric2}"`. -/
def corrDesc (strength_desc direction metric1 metric2 : String) : String :=
  s!"A {strength_desc} {direction} correlation exists between {metric1} and {metric2}"

/-! ## `TrendAnalyzer._detect_pattern` -/

/-- Model of `TrendAnalyzer._detect_pattern`.  Notes on exactness:

* the test `abs(slope) < threshold` with `threshold = std_dev * 0.1` is
  encoded as `slope² < sampleVar/100`: both sides of the Python comparison
  are nonnegative, so squaring preserves the strict inequality in both
  directions (when the variance is `0` the Python test is `|slope| < 0`,
  i.e. false, and the encoding gives `slope² < 0`, also false);
* `len(values) >= 3 > 1`, so the guard `if len(values) > 1 else 0` on
  `std_dev` never produces the `0` branch;
* `r_squared * 100` is clamped by `max(50.0, min(100.0, ·))`. -/
def detect_pattern (metric : String) (time_series : TimeSeries)
    (time_range : Timestamp × Timestamp) : Option Pattern :=
  if time_series.length < 3 then none
  else
    let values := time_series.map Prod.snd
    let numerator := olsNumerator values
    let denominator := olsDenominator values
    if denominator = 0 then
      some ⟨metric, TrendType.stable, 95,
        patternDesc metric TrendType.stable.value, time_range⟩
    else
      let slope := numerator / denominator
      let trend :=
        if slope ^ 2 < sampleVar values / 100 then TrendType.stable
        else if 0 < slope then TrendType.increasing
        else TrendType.decreasing
      let r_squared := if 0 < ssTot values then 1 - ssRes values slope / ssTot values else 0
      let confidence := max 50 (min 100 (r_squared * 100))
      some ⟨metric, trend, confidence,
        patternDesc metric trend.value, time_range⟩

/-! ## `TrendAnalyzer._detect_significant_change` -/

/-- The scan loop `for i in range(midpoint, len(values))` of
`_detect_significant_change`, operating on the `(timestamp, value)` pairs
from the midpoint on.  `int(change_pct * 100)` truncates toward zero; in the
branch where it is evaluated `change_pct > 0.3 > 0`, so it equals the floor. -/
def scanChange (metric : String) (baseline : ℚ) : TimeSeries → Option Change
  | [] => none
  | (t, v) :: rest =>
    let change_pct := |v - baseline| / baseline
    if 3/10 < change_pct then
      let magnitude := v - baseline
      let direction := if 0 < magnitude then "increased" else "decreased"
      let pct_change : ℤ := ⌊change_pct * 100⌋
      some ⟨metric, t, magnitude, changeDesc metric direction pct_change, []⟩
    else scanChange metric baseline rest

/-- Model of `baseline = statistics.mean(values[:midpoint])` with
`midpoint = len(values) // 2`. -/
def baselineOf (time_series : TimeSeries) : ℚ :=
  mean ((time_series.map Prod.snd).take (time_series.length / 2))

/-- Model of `TrendAnalyzer._detect_significant_change`: requires at least 7 points,
guards a zero baseline, then reports the first point of the second window
whose `abs(value - baseline) / baseline` exceeds the 0.3 threshold
(`self.significant_change_threshold`). -/
def detect_significant_change (metric : String) (time_series : TimeSeries) :
    Option Change :=
  if time_series.length < 7 then none
  else
    let baseline := baselineOf time_series
    if baseline = 0 then none
    else scanChange metric baseline (time_series.drop (time_series.length / 2))

/-! ## `TrendAnalyzer._align_time_series` -/

/-- Model of `dict1 = {t: v for t, v in data1}` of `_align_time_series`: a Python dict
comprehension inserts left to right, so for a duplicated timestamp the value
of the **last** occurrence is stored. -/
def buildDict (d : TimeSeries) : Timestamp → Option ℚ :=
  d.foldl (fun m p => fun t => if t = p.1 then some p.2 else m t) (fun _ => none)

/-- Model of `sorted(set(dict1.keys()) & set(dict2.keys()))`: the sorted list of the
set of timestamps common to both series.  `dedup`+`filter` computes a
duplicate-free list of the key-set intersection and `insertionSort` sorts it
ascending, which is exactly the list Python produces. -/
def commonTimestamps (d1 d2 : TimeSeries) : List Timestamp :=
  List.insertionSort (· ≤ ·)
    (((d1.map Prod.fst).dedup).filter fun t => t ∈ d2.map Prod.fst)

/-- Model of `dict1[t]` for a timestamp known to be a key; the `getD 0` default is
never reached on the common timestamps. -/
def valAt (d : TimeSeries) (t : Timestamp) : ℚ := (buildDict d t).getD 0

/-- Model of `TrendAnalyzer._align_time_series`:
`[(t, dict1[t], dict2[t]) for t in sorted(common_timestamps)]`. -/
def align_time_series (d1 d2 : TimeSeries) : List (Timestamp × ℚ × ℚ) :=
  (commonTimestamps d1 d2).map fun t => (t, valAt d1 t, valAt d2 t)

/-! ## `TrendAnalyzer._calculate_correlation` and `_assess_causality` -/

/-- Model of `TrendAnalyzer._calculate_correlation`, in the exact `StrengthRep`
representation.  The Python test `denominator == 0` with
`denominator = std1 * std2 * n` holds iff `var1 * var2 * n² = 0`
(a product of square roots is zero iff the product of the radicands is),
so the `⟨0, 1⟩` branches coincide exactly with the code's `return 0.0`. -/
def calculate_correlation (values1 values2 : List ℚ) : StrengthRep :=
  if values1.length ≠ values2.length ∨ values1.length < 2 then ⟨0, 1⟩
  else
    let n : ℚ := (values1.length : ℚ)
    let mean1 := mean values1
    let mean2 := mean values2
    let numerator := ((values1.zip values2).map fun p => (p.1 - mean1) * (p.2 - mean2)).sum
    let den2 := sampleVar values1 * sampleVar values2 * n ^ 2
    if den2 = 0 then ⟨0, 1⟩ else ⟨numerator, den2⟩

/-- Model of `str.lower()` (the metric names the curated table uses are ASCII). -/
def lowerStr (s : String) : String := ⟨s.data.map Char.toLower⟩

/-- The curated `causal_pairs` dict of `_assess_causality`, in its literal
insertion order. -/
def causalPairs : List ((String × String) × CausalityLevel) :=
  [(("caffeine", "sleep_quality"), CausalityLevel.likely),
   (("sodium", "water_retention"), CausalityLevel.likely),
   (("water_intake", "water_retention"), CausalityLevel.likely),
   (("sleep_quality", "stress"), CausalityLevel.possible),
   (("food_quality", "energy"), CausalityLevel.likely)]

/-- Model of `TrendAnalyzer._assess_causality`: curated lookup of the lowercased
ordered pair, then of its reverse, then the magnitude fallback
`possible if abs(strength) > 0.7 else unlikely` (the `> 0.7` test in exact
squared form, see `StrengthRep`). -/
def assess_causality (metric1 metric2 : String) (s : StrengthRep) :
    CausalityLevel :=
  let pair_key := (lowerStr metric1, lowerStr metric2)
  let reverse_key := (lowerStr metric2, lowerStr metric1)
  match causalPairs.lookup pair_key with
  | some c => c
  | none =>
    match causalPairs.lookup reverse_key with
    | some c => c
    | none => if s.absGtQ (7/10) then CausalityLevel.possible
              else CausalityLevel.unlikely

/-- Model of `TrendAnalyzer.detect_correlations` (the unused `user_id` parameter is
dropped).  The weak-correlation cut `abs(strength) < 0.3` and the
description thresholds `strength > 0` / `abs(strength) > 0.7` are encoded in
exact squared form (see `StrengthRep`). -/
def detect_correlations (metric1 metric2 : String) (data1 data2 : TimeSeries) :
    Option Correlation :=
  if data1.length < 3 ∨ data2.length < 3 then none
  else
    let aligned := align_time_series data1 data2
    if aligned.length < 3 then none
    else
      let values1 : List ℚ := aligned.map fun p => p.2.1
      let values2 : List ℚ := aligned.map fun p => p.2.2
      let s : StrengthRep := calculate_correlation values1 values2
      if s.absLtQ (3/10) then none
      else
        let causality := assess_causality metric1 metric2 s
        let direction := if 0 < s.num then "positive" else "negative"
        let strength_desc := if s.absGtQ (7/10) then "strong" else "moderate"
        some ⟨metric1, metric2, s,
          corrDesc strength_desc direction metric1 metric2, causality⟩

/-! ## Data model of `models/core.py` (the fields the analyzers read) -/

/-- Model of `NutritionalInfo` of `models/core.py`.  The pydantic range constraints
(`calories ≥ 0`, `1 ≤ processing_level ≤ 5`, …) are preconditions of the
validation layer; theorems that need them state them as hypotheses. -/
structure NutritionalInfo where
  calories : ℚ
  protein : ℚ
  carbohydrates : ℚ
  fat : ℚ
  sodium : ℚ
  sugar : ℚ
  fiber : ℚ
  preservatives : List String
  processing_level : ℤ
deriving DecidableEq

/-- Model of `FoodItem` of `models/core.py`. -/
structure FoodItem where
  name : String
  serving_size : ℚ
  unit : String
  nutritional_info : NutritionalInfo
deriving DecidableEq

/-! ## `food_classifier.py` -/

/-- Model of `FoodCategory(str, Enum)`. -/
inductive FoodCategory where
  | healthy
  | junk
  | preservative_heavy
deriving DecidableEq, BEq

/-- Model of `FSIParameters` of `food_classifier.py`. -/
structure FSIParameters where
  nutrient_density : ℚ
  processing_score : ℚ
  preservative_load : ℚ
  sugar_content : ℚ
  sodium_level : ℚ
deriving DecidableEq

/-- Model of `FoodClassification` of `food_classifier.py`. -/
structure FoodClassification where
  category : FoodCategory
  confidence : ℚ
  rationale : String
  dominant_factors : List String
deriving DecidableEq

/-- Model of `FoodClassifier.get_fsi_parameters`. -/
def get_fsi_parameters (food_item : FoodItem) : FSIParameters :=
  let nutrition := food_item.nutritional_info
  let nutrient_density :=
    if 1 < nutrition.calories then
      min 1 ((nutrition.protein + nutrition.fiber) / (nutrition.calories / 100))
    else 0
  let processing_score := (5 - (nutrition.processing_level : ℚ)) / 4
  let preservative_load := min 1 ((nutrition.preservatives.length : ℚ) / 5)
  let sugar_content := min 1 (nutrition.sugar / 30)
  let sodium_level := min 1 (nutrition.sodium / 1000)
  ⟨nutrient_density, processing_score, preservative_load, sugar_content, sodium_level⟩

/-- The `healthy_score` weighted combination of
`FoodClassifier._calculate_category_scores`. -/
def healthy_score (food_item : FoodItem) : ℚ :=
  let p := get_fsi_parameters food_item
  p.nutrient_density * (4/10) + p.processing_score * (3/10) +
    (1 - p.preservative_load) * (15/100) + (1 - p.sugar_content) * (75/1000) +
    (1 - p.sodium_level) * (75/1000)

/-- The `junk_score` of `_calculate_category_scores`, including the three
hard-threshold floors (`PROCESSING_JUNK_MIN = 4`, `SUGAR_JUNK_THRESHOLD = 15`,
`SODIUM_JUNK_THRESHOLD = 600`) applied to it in the code's order. -/
def junk_score (food_item : FoodItem) : ℚ :=
  let p := get_fsi_parameters food_item
  let nutrition := food_item.nutritional_info
  let base := (1 - p.nutrient_density) * (3/10) + (1 - p.processing_score) * (3/10) +
    p.sugar_content * (2/10) + p.sodium_level * (2/10)
  let base := if 4 ≤ nutrition.processing_level then max base (7/10) else base
  let base := if 15 < nutrition.sugar then max base (6/10) else base
  if 600 < nutrition.sodium then max base (6/10) else base

/-- The `preservative_score` of `_calculate_category_scores`, including the
hard floor on `PRESERVATIVE_COUNT_THRESHOLD = 3` preservatives. -/
def preservative_score (food_item : FoodItem) : ℚ :=
  let p := get_fsi_parameters food_item
  if 3 ≤ food_item.nutritional_info.preservatives.length then
    max p.preservative_load (8/10)
  else p.preservative_load

/-- Model of `FoodClassifier._calculate_category_scores`: the scores dict, as the
association list in the dict's insertion order
(HEALTHY, JUNK, PRESERVATIVE_HEAVY). -/
def calculate_category_scores (food_item : FoodItem) : List (FoodCategory × ℚ) :=
  [(FoodCategory.healthy, healthy_score food_item),
   (FoodCategory.junk, junk_score food_item),
   (FoodCategory.preservative_heavy, preservative_score food_item)]

/-- Score of a category in the scores dict (`scores[c]`; total lookup on the
three-entry dict built above, `0` never reached there). -/
def scoreOf (scores : List (FoodCategory × ℚ)) (c : FoodCategory) : ℚ :=
  (scores.lookup c).getD 0

/-- Python's `max(items, key=...)` over a non-empty sequence: iterates left to
right and keeps the current item unless a later one is **strictly**
greater, i.e. returns the first item attaining the maximum. -/
def pyMaxSnd (acc : FoodCategory × ℚ) : List (FoodCategory × ℚ) → FoodCategory × ℚ
  | [] => acc
  | p :: rest => pyMaxSnd (if acc.2 < p.2 then p else acc) rest

/-- Model of `max(scores, key=scores.get)` of `_select_dominant_category`, over the
dict's insertion order. -/
def naive_winner (scores : List (FoodCategory × ℚ)) : FoodCategory × ℚ :=
  match scores with
  | [] => (FoodCategory.healthy, 0)
  | p :: rest => pyMaxSnd p rest

/-- Model of `FoodClassifier._select_dominant_category`.  The `[] ⇒ healthy` arm of
`naive_winner` is dead code: the scores dict always has three entries
(Python's `max` would raise on an empty dict). -/
def select_dominant_category (scores : List (FoodCategory × ℚ))
    (food_item : FoodItem) : FoodCategory :=
  let nutrition := food_item.nutritional_info
  if 3 ≤ nutrition.preservatives.length then FoodCategory.preservative_heavy
  else if 6/10 ≤ scoreOf scores FoodCategory.preservative_heavy then
    FoodCategory.preservative_heavy
  else
    let maxP := naive_winner scores
    if maxP.1 = FoodCategory.healthy ∧
        |scoreOf scores FoodCategory.junk - maxP.2| < 15/100 then
      FoodCategory.junk
    else maxP.1

/-- Model of `FoodClassifier._generate_rationale`.  Numeric interpolations: Python
renders the floats (`f"({nutrition.sugar}g)"`); we interpolate the exact
rational, a rendering-only difference. -/
def generate_rationale (category : FoodCategory) (food_item : FoodItem)
    (fsi_params : FSIParameters) : String × List String :=
  let nutrition := food_item.nutritional_info
  match category with
  | FoodCategory.healthy =>
    let parts :=
      (if 7/10 ≤ fsi_params.nutrient_density then ["high nutrient density"] else []) ++
      (if nutrition.processing_level ≤ 2 then ["minimal processing"] else []) ++
      (if nutrition.preservatives.length = 0 then ["no preservatives"] else []) ++
      (if 3 ≤ nutrition.fiber then ["good fiber content"] else [])
    let factors :=
      (if 7/10 ≤ fsi_params.nutrient_density then ["nutrient_density"] else []) ++
      (if nutrition.processing_level ≤ 2 then ["low_processing"] else []) ++
      (if nutrition.preservatives.length = 0 then ["no_preservatives"] else []) ++
      (if 3 ≤ nutrition.fiber then ["fiber"] else [])
    let joined := String.intercalate ", " parts
    let factors := if factors = [] then ["overall_composition"] else factors
    (s!"Classified as healthy due to {joined}.", factors)
  | FoodCategory.junk =>
    let sugar := nutrition.sugar
    let sodium := nutrition.sodium
    let parts :=
      (if 15 < nutrition.sugar then [s!"high sugar content ({sugar}g)"] else []) ++
      (if 600 < nutrition.sodium then [s!"high sodium ({sodium}mg)"] else []) ++
      (if 4 ≤ nutrition.processing_level then ["highly processed"] else []) ++
      (if fsi_params.nutrient_density < 3/10 then ["low nutritional value"] else [])
    let factors :=
      (if 15 < nutrition.sugar then ["high_sugar"] else []) ++
      (if 600 < nutrition.sodium then ["high_sodium"] else []) ++
      (if 4 ≤ nutrition.processing_level then ["high_processing"] else []) ++
      (if fsi_params.nutrient_density < 3/10 then ["low_nutrients"] else [])
    let joined := String.intercalate ", " parts
    let factors := if factors = [] then ["overall_composition"] else factors
    (s!"Classified as junk food due to {joined}.", factors)
  | FoodCategory.preservative_heavy =>
    let count := nutrition.preservatives.length
    let listed := String.intercalate ", " (nutrition.preservatives.take 3)
    let more := count - 3
    let listed := if 3 < count then listed ++ s!", and {more} more" else listed
    let factors := ["preservatives"] ++
      (if 4 ≤ nutrition.processing_level then ["high_processing"] else [])
    (s!"Classified as preservative-heavy due to {count} preservatives detected: {listed}.",
     factors)

/-- Model of `FoodClassifier._calculate_confidence`: confidence from the separation
between the chosen category's score and the best other score, clamped by
`min(95.0, max(60.0, 60 + separation * 70))`; `95` when no other category
was scored. -/
def calculate_confidence (scores : List (FoodCategory × ℚ))
    (category : FoodCategory) : ℚ :=
  let category_score := scoreOf scores category
  let other_scores := (scores.filter fun p => ¬(p.1 = category)).map Prod.snd
  match other_scores.max? with
  | none => 95
  | some max_other => min 95 (max 60 (60 + (category_score - max_other) * 70))

/-- Model of `FoodClassifier.classify_food`. -/
def classify_food (food_item : FoodItem) : FoodClassification :=
  let fsi_params := get_fsi_parameters food_item
  let scores := calculate_category_scores food_item
  let category := select_dominant_category scores food_item
  let r := generate_rationale category food_item fsi_params
  let confidence := calculate_confidence scores category
  ⟨category, confidence, r.1, r.2⟩

/-! ## `water_retention_predictor.py` -/

/-- Model of `BodyTypeClassification(str, Enum)` of `models/core.py`. -/
inductive BodyTypeClass where
  | ectomorph
  | mesomorph
  | endomorph
  | mixed
deriving DecidableEq

/-- Model of `.value` of a `BodyTypeClass` member. -/
def BodyTypeClass.value : BodyTypeClass → String
  | .ectomorph => "ectomorph"
  | .mesomorph => "mesomorph"
  | .endomorph => "endomorph"
  | .mixed => "mixed"

/-- Model of `HabitType(str, Enum)` of `models/core.py`. -/
inductive HabitType where
  | exercise
  | stress
  | screen_time
  | caffeine
  | alcohol
  | other
deriving DecidableEq

/-- Model of `SleepData` of `models/core.py` (the fields the predictor reads;
`bedtime`/`wake_time`/`interruptions`/`timestamp` are never read by the
analyzers and are omitted). -/
structure SleepData where
  duration : ℚ
  quality : ℤ
deriving DecidableEq

/-- Model of `Habit` of `models/core.py` (the fields the predictor reads;
`timing`/`notes` are never read by the analyzers and are omitted). -/
structure Habit where
  type : HabitType
  intensity : ℤ
  duration : Option ℚ
deriving DecidableEq

/-- Model of `BodyType` of `models/core.py`. -/
structure BodyType where
  classification : BodyTypeClass
  characteristics : List String
  user_id : String
deriving DecidableEq

/-- Model of `LifestyleInput` of `models/core.py` (the fields the predictor reads;
`timestamp`/`notes` are never read by the analyzers and are omitted). -/
structure LifestyleInput where
  food_items : List FoodItem
  water_intake : ℚ
  sleep_data : Option SleepData
  daily_habits : List Habit
  user_id : String
deriving DecidableEq

/-- Model of `RetentionLevel(str, Enum)`. -/
inductive RetentionLevel where
  | low
  | moderate
  | high
deriving DecidableEq

/-- Model of `RetentionFactorType(str, Enum)`. -/
inductive RetentionFactorType where
  | sodium
  | hydration
  | sleep
  | hormonal
  | stress
deriving DecidableEq

/-- Model of `.value` of a `RetentionFactorType` member. -/
def RetentionFactorType.value : RetentionFactorType → String
  | .sodium => "sodium"
  | .hydration => "hydration"
  | .sleep => "sleep"
  | .hormonal => "hormonal"
  | .stress => "stress"

/-- Model of `RetentionFactor` of `water_retention_predictor.py`. -/
structure RetentionFactor where
  type : RetentionFactorType
  impact : ℤ
  description : String
  recommendation : String
deriving DecidableEq

/-- Model of `RetentionPrediction` of `water_retention_predictor.py`. -/
structure RetentionPrediction where
  level : RetentionLevel
  confidence : ℚ
  primary_factor : RetentionFactor
  contributing_factors : List RetentionFactor
  explanation : String
deriving DecidableEq

/-- Model of `WaterRetentionPredictor.BODY_TYPE_SENSITIVITY` (`dict.get` with default
`1.0`; all four classifications are keys, so the default is never used). -/
def bodyTypeSensitivity : BodyTypeClass → ℚ
  | .ectomorph => 8/10
  | .mesomorph => 1
  | .endomorph => 13/10
  | .mixed => 11/10

/-- Model of `WaterRetentionPredictor._calculate_sodium_factor`.  Thresholds
`HIGH_SODIUM_THRESHOLD = 2000`, `MODERATE_SODIUM_THRESHOLD = 1500`.  Numeric
interpolations render the exact rational where Python formats with `:.0f`
(rendering-only difference). -/
def calculate_sodium_factor (lifestyle : LifestyleInput) : Option RetentionFactor :=
  let total_sodium := (lifestyle.food_items.map fun item => item.nutritional_info.sodium).sum
  if 2000 ≤ total_sodium then
    some ⟨RetentionFactorType.sodium, 3,
      s!"High sodium intake ({total_sodium}mg) significantly increases water retention as your body holds water to dilute sodium.",
      "Reduce sodium intake by choosing fresh foods over processed ones, avoiding added salt, and reading nutrition labels carefully."⟩
  else if 1500 ≤ total_sodium then
    some ⟨RetentionFactorType.sodium, 2,
      s!"Moderate sodium intake ({total_sodium}mg) may contribute to some water retention.",
      "Consider reducing sodium intake slightly by limiting processed foods and using herbs and spices for flavor instead of salt."⟩
  else
    none

/-- Model of `WaterRetentionPredictor._calculate_hydration_factor`.  Thresholds
`LOW_WATER_THRESHOLD = 1500`, `OPTIMAL_WATER_MIN = 2000`,
`VERY_HIGH_WATER_THRESHOLD = 4500`. -/
def calculate_hydration_factor (lifestyle : LifestyleInput) : Option RetentionFactor :=
  let water_intake := lifestyle.water_intake
  if water_intake < 1500 then
    some ⟨RetentionFactorType.hydration, 2,
      s!"Low water intake ({water_intake}ml) may cause your body to retain water as a protective mechanism.",
      "Gradually increase water intake to 2000-3000ml per day. Drink water consistently throughout the day."⟩
  else if 4500 < water_intake then
    some ⟨RetentionFactorType.hydration, 1,
      s!"Very high water intake ({water_intake}ml) may contribute to slight water retention, though this is less common.",
      "Consider moderating water intake to 2000-3500ml per day unless advised otherwise by a healthcare provider."⟩
  else if water_intake < 2000 then
    some ⟨RetentionFactorType.hydration, 1,
      s!"Water intake ({water_intake}ml) is slightly below optimal and may contribute minimally to retention.",
      "Try to increase water intake slightly to reach 2000ml per day."⟩
  else
    none

/-- Model of `WaterRetentionPredictor._calculate_sleep_factor`.  Thresholds
`POOR_SLEEP_QUALITY_THRESHOLD = 5` (inclusive), `POOR_SLEEP_DURATION_THRESHOLD
= 6` (strict). -/
def calculate_sleep_factor (lifestyle : LifestyleInput) : Option RetentionFactor :=
  match lifestyle.sleep_data with
  | none => none
  | some sleep =>
    let q := sleep.quality
    let d := sleep.duration
    let poor_quality := q ≤ 5
    let poor_duration := d < 6
    if poor_quality ∧ poor_duration then
      some ⟨RetentionFactorType.sleep, 2,
        s!"Poor sleep quality ({q}/10) and insufficient duration ({d}h) disrupt hormonal balance, leading to increased water retention.",
        "Prioritize 7-9 hours of quality sleep. Establish a consistent bedtime routine and create a comfortable sleep environment."⟩
    else if poor_quality then
      some ⟨RetentionFactorType.sleep, 2,
        s!"Poor sleep quality ({q}/10) can disrupt hormones that regulate fluid balance, contributing to water retention.",
        "Focus on improving sleep quality through better sleep hygiene, reducing screen time before bed, and managing stress."⟩
    else if poor_duration then
      some ⟨RetentionFactorType.sleep, 1,
        s!"Insufficient sleep duration ({d}h) may affect fluid regulation hormones.",
        "Aim for 7-9 hours of sleep per night to support healthy hormonal balance."⟩
    else
      none

/-- Model of `WaterRetentionPredictor._calculate_stress_factor`.  Threshold
`HIGH_STRESS_INTENSITY = 7`; uses the maximum intensity among
`HabitType.STRESS` habits. -/
def calculate_stress_factor (lifestyle : LifestyleInput) : Option RetentionFactor :=
  let stress_habits := lifestyle.daily_habits.filter fun h => h.type = HabitType.stress
  match stress_habits with
  | [] => none
  | _ :: _ =>
    let max_stress := ((stress_habits.map fun h => h.intensity).max?).getD 0
    if 7 ≤ max_stress then
      some ⟨RetentionFactorType.stress, 2,
        s!"High stress levels (intensity {max_stress}/10) trigger cortisol release, which can increase water retention and bloating.",
        "Practice stress management techniques such as meditation, deep breathing, regular exercise, or talking to a counselor."⟩
    else if 5 ≤ max_stress then
      some ⟨RetentionFactorType.stress, 1,
        s!"Moderate stress levels (intensity {max_stress}/10) may contribute slightly to water retention through cortisol.",
        "Consider incorporating stress-reduction activities into your daily routine, such as walking, yoga, or mindfulness."⟩
    else
      none

/-- The list of qualifying factors in generation order
(sodium, hydration, sleep, stress), before the stable descending sort of
`analyze_retention_factors`. -/
def qualifyingFactors (lifestyle : LifestyleInput) : List RetentionFactor :=
  [calculate_sodium_factor lifestyle, calculate_hydration_factor lifestyle,
   calculate_sleep_factor lifestyle, calculate_stress_factor lifestyle].filterMap id

/-- Model of `WaterRetentionPredictor.analyze_retention_factors`: the qualifying
factors sorted by impact, highest first (`list.sort(key=..., reverse=True)`
is a stable descending sort, as is `insertionSort` with this relation). -/
def analyze_retention_factors (lifestyle : LifestyleInput) : List RetentionFactor :=
  List.insertionSort (fun a b => b.impact ≤ a.impact) (qualifyingFactors lifestyle)

/-- Python's `max(factors, key=lambda f: f.impact)` over a non-empty list:
first item attaining the maximum wins. -/
def pyMaxFactor (acc : RetentionFactor) : List RetentionFactor → RetentionFactor
  | [] => acc
  | f :: rest => pyMaxFactor (if acc.impact < f.impact then f else acc) rest

/-- The synthetic neutral factor substituted when no factor qualifies. -/
def neutralFactor : RetentionFactor :=
  ⟨RetentionFactorType.hydration, 1,
   "All lifestyle factors are within optimal ranges.",
   "Continue maintaining your current healthy habits."⟩

/-- Model of `WaterRetentionPredictor._calculate_confidence`. -/
def retention_confidence (factors : List RetentionFactor)
    (adjusted_score : ℚ) : ℚ :=
  match factors with
  | [] => 60
  | _ :: _ =>
    let impacts := factors.map fun f => f.impact
    let max_impact := impacts.max?.getD 0
    let other_impacts := impacts.filter fun i => ¬(i = max_impact)
    let base : ℚ :=
      match other_impacts.max? with
      | none => 85
      | some second => 70 + ((max_impact - second : ℤ) : ℚ) * 10
    let base := if adjusted_score ≤ 1 ∨ 7 ≤ adjusted_score then base + 5 else base
    min 95 (max 65 base)

/-- Model of `WaterRetentionPredictor._generate_explanation`. -/
def generate_explanation (level : RetentionLevel)
    (primary_factor : RetentionFactor) (all_factors : List RetentionFactor)
    (body_type : BodyType) : String :=
  let level_desc :=
    match level with
    | RetentionLevel.low => "low water retention"
    | RetentionLevel.moderate => "moderate water retention"
    | RetentionLevel.high => "high water retention"
  let ptype := primary_factor.type.value
  let pdesc := primary_factor.description
  let parts := [s!"Based on your lifestyle factors, you are experiencing {level_desc}.",
    s!"The primary contributing factor is {ptype}: {pdesc}"]
  let other_factors := all_factors.filter fun f => ¬(f = primary_factor) ∧ 2 ≤ f.impact
  let names := String.intercalate ", " (other_factors.map fun f => f.type.value)
  let parts := parts ++
    (if other_factors = [] then [] else [s!"Additional contributing factors include: {names}."])
  let sensitivity := bodyTypeSensitivity body_type.classification
  let bvalue := body_type.classification.value
  let parts := parts ++
    (if 1 < sensitivity then
      [s!"Your {bvalue} body type may have increased sensitivity to water retention factors."]
     else if sensitivity < 1 then
      [s!"Your {bvalue} body type typically has lower sensitivity to water retention factors."]
     else [])
  String.intercalate " " parts

/-- Model of `WaterRetentionPredictor.predict_retention`. -/
def predict_retention (lifestyle : LifestyleInput) (body_type : BodyType) :
    RetentionPrediction :=
  let factors := analyze_retention_factors lifestyle
  let total_score : ℤ := (factors.map fun f => f.impact).sum
  let sensitivity := bodyTypeSensitivity body_type.classification
  let adjusted_score := (total_score : ℚ) * sensitivity
  let level :=
    if adjusted_score ≤ 2 then RetentionLevel.low
    else if adjusted_score ≤ 5 then RetentionLevel.moderate
    else RetentionLevel.high
  let primary_factor :=
    match factors with
    | [] => neutralFactor
    | f :: rest => pyMaxFactor f rest
  let explanation := generate_explanation level primary_factor factors body_type
  let confidence := retention_confidence factors adjusted_score
  ⟨level, confidence, primary_factor, factors, explanation⟩

/-! ## Specification-side definitions and concrete inputs for the claims -/

/-- The `max(other_scores)` of `_calculate_confidence`: the best score among
the categories other than the winner (`0` unreachable: the dict always holds
three categories). -/
def maxOtherScore (scores : List (FoodCategory × ℚ)) (c : FoodCategory) : ℚ :=
  (((scores.filter fun p => ¬(p.1 = c)).map Prod.snd).max?).getD 0

/-- Spec-side description of duplicate-timestamp handling ("last write
wins"): the value of the last occurrence of timestamp `t` in the series. -/
def lastVal (d : TimeSeries) (t : Timestamp) : Option ℚ :=
  (d.reverse.find? fun p => p.1 == t).map Prod.snd

/-- A 10-point series `A[i] = i` on timestamps `0..9` (concrete instance of
the correlation scenario). -/
def seriesA : TimeSeries :=
  [(0, 0), (1, 1), (2, 2), (3, 3), (4, 4), (5, 5), (6, 6), (7, 7), (8, 8), (9, 9)]

/-- The exact doubling `B[i] = 2·A[i]` (noise `0`, within the `±0.1` bound). -/
def seriesB : TimeSeries :=
  [(0, 0), (1, 2), (2, 4), (3, 6), (4, 8), (5, 10), (6, 12), (7, 14), (8, 16), (9, 18)]

/-- A 3-point constant series (value `5`). -/
def constSeries3 : TimeSeries := [(0, 5), (1, 5), (2, 5)]

/-- A 7-point constant series (value `1`): long enough for change detection,
nonzero baseline, but no point deviates from the baseline. -/
def constSeries7 : TimeSeries :=
  [(0, 1), (1, 1), (2, 1), (3, 1), (4, 1), (5, 1), (6, 1)]

/-- A 14-point series with first-half mean `-1` and second half constantly
`1.35 · (-1)`: every second-half point deviates by 35% in absolute value,
yet the signed-baseline test never fires. -/
def negSeries14 : TimeSeries :=
  [(0, -1), (1, -1), (2, -1), (3, -1), (4, -1), (5, -1), (6, -1),
   (7, -27/20), (8, -27/20), (9, -27/20), (10, -27/20), (11, -27/20),
   (12, -27/20), (13, -27/20)]

/-- First half of a positive change-detection scenario: 7 points of value 2. -/
def baseHalf7 : TimeSeries := [(0, 2), (1, 2), (2, 2), (3, 2), (4, 2), (5, 2), (6, 2)]

/-- Second half: 7 points of value `1.35 · 2 = 2.7`. -/
def stepHalf7 : TimeSeries :=
  [(7, 27/10), (8, 27/10), (9, 27/10), (10, 27/10), (11, 27/10), (12, 27/10), (13, 27/10)]

/-- Food item with three preservatives and otherwise empty nutrition. -/
def foodPres3 : FoodItem :=
  ⟨"x", 1, "g", ⟨0, 0, 0, 0, 0, 0, 0, ["a", "b", "c"], 1⟩⟩

/-- Food item whose healthy and junk scores tie at `0.45` (calories 0,
processing level 3, no preservatives): a concrete near-tie. -/
def foodTie : FoodItem :=
  ⟨"y", 1, "g", ⟨0, 0, 0, 0, 0, 0, 0, [], 3⟩⟩

/-- The water-retention scenario input: one food item with 2500 mg sodium,
1000 ml water, sleep quality 3 for 5 h, one stress habit of intensity 8. -/
def lifestyleScenario : LifestyleInput :=
  ⟨[⟨"salty", 1, "g", ⟨0, 0, 0, 0, 2500, 0, 0, [], 1⟩⟩], 1000,
   some ⟨5, 3⟩, [⟨HabitType.stress, 8, none⟩], "u"⟩

/-- An endomorph body type. -/
def bodyEndo : BodyType := ⟨BodyTypeClass.endomorph, [], "u"⟩

/-- Series with a duplicated timestamp `0` (values 1 then 2) for the
last-write-wins witness. -/
def dupSeries1 : TimeSeries := [(0, 1), (0, 2), (1, 5)]

/-- Partner series for the last-write-wins witness. -/
def dupSeries2 : TimeSeries := [(0, 3), (1, 4)]

/-- A 2-point series (too short for trend detection). -/
def shortSeries2 : TimeSeries := [(0, 1), (1, 2)]

/-! ## General helper lemmas -/

theorem mean_of_constant {l : List ℚ} {c : ℚ} (hne : l ≠ []) (h : ∀ x ∈ l, x = c) :
    mean l = c := by
  have hrep : l = List.replicate l.length c := List.eq_replicate_iff.2 ⟨rfl, h⟩
  have hsum : l.sum = (l.length : ℚ) * c := by
    conv_lhs => rw [hrep]
    rw [List.sum_replicate, nsmul_eq_mul]
  have hlen : (l.length : ℚ) ≠ 0 :=
    Nat.cast_ne_zero.2 (List.length_pos.2 hne).ne'
  rw [mean, hsum, mul_div_cancel_left₀ _ hlen]

/-! ## Food classifier: score lookups reduce definitionally -/

theorem scoreOf_healthy (f : FoodItem) :
    scoreOf (calculate_category_scores f) FoodCategory.healthy = healthy_score f := rfl

theorem scoreOf_junk (f : FoodItem) :
    scoreOf (calculate_category_scores f) FoodCategory.junk = junk_score f := rfl

theorem scoreOf_ph (f : FoodItem) :
    scoreOf (calculate_category_scores f) FoodCategory.preservative_heavy =
      preservative_score f := rfl

theorem classify_category_eq (f : FoodItem) :
    (classify_food f).category = select_dominant_category (calculate_category_scores f) f := rfl

theorem classify_confidence_eq (f : FoodItem) :
    (classify_food f).confidence =
      calculate_confidence (calculate_category_scores f) ((classify_food f).category) := rfl

theorem calc_conf_eval (f : FoodItem) (c : FoodCategory) :
    calculate_confidence (calculate_category_scores f) c =
      min 95 (max 60 (60 + (scoreOf (calculate_category_scores f) c -
        maxOtherScore (calculate_category_scores f) c) * 70)) := by
  cases c <;> rfl

/-- C4: for every food item the classification confidence is
`clamp(60 + 70·(winnerScore − secondBestScore), 60, 95)` computed from the
chosen category's score and the maximum of the other category scores, hence
always within `[60, 95]`; with a single scored category the confidence is
exactly 95. -/
theorem C4_confidence_formula_and_bounds :
    (∀ f : FoodItem,
      (classify_food f).confidence =
        min 95 (max 60 (60 + 70 *
          (scoreOf (calculate_category_scores f) ((classify_food f).category) -
           maxOtherScore (calculate_category_scores f) ((classify_food f).category)))) ∧
      60 ≤ (classify_food f).confidence ∧ (classify_food f).confidence ≤ 95) ∧
    (∀ (c : FoodCategory) (s : ℚ), calculate_confidence [(c, s)] c = 95) := by
  constructor
  · intro f
    rw [classify_confidence_eq, calc_conf_eval]
    refine ⟨by ring_nf, le_min (by norm_num) (le_max_left _ _), min_le_left _ _⟩
  · intro c s
    simp [calculate_confidence]

/-- C5: at least three preservatives force category PRESERVATIVE_HEAVY,
and the hard override floors the preservative score to at least 0.8. -/
theorem C5_preservative_hard_override :
    ∀ f : FoodItem, 3 ≤ f.nutritional_info.preservatives.length →
      (classify_food f).category = FoodCategory.preservative_heavy ∧
      8/10 ≤ scoreOf (calculate_category_scores f) FoodCategory.preservative_heavy := by
  intro f h
  constructor
  · rw [classify_category_eq]
    simp only [select_dominant_category]
    rw [if_pos h]
  · rw [scoreOf_ph]
    simp only [preservative_score]
    rw [if_pos h]
    exact le_max_right _ _

theorem C5_witness :
    (classify_food foodPres3).category = FoodCategory.preservative_heavy ∧
      8/10 ≤ scoreOf (calculate_category_scores foodPres3) FoodCategory.preservative_heavy :=
  C5_preservative_hard_override foodPres3 (by decide)

/-- C6: with fewer than three preservatives, if HEALTHY is (weakly) the
best-scoring category but JUNK is within 0.15 of it, the classifier returns
JUNK; and the tie-break never turns a non-HEALTHY naive winner into
HEALTHY. -/
theorem C6_caution_tie_break :
    (∀ f : FoodItem, f.nutritional_info.preservatives.length < 3 →
      (∀ c, scoreOf (calculate_category_scores f) c ≤ healthy_score f) →
      healthy_score f - junk_score f < 3/20 →
      (classify_food f).category = FoodCategory.junk) ∧
    (∀ f : FoodItem, (naive_winner (calculate_category_scores f)).1 ≠ FoodCategory.healthy →
      (classify_food f).category ≠ FoodCategory.healthy) := by
  have hps : ∀ f : FoodItem, f.nutritional_info.preservatives.length < 3 →
      ¬(6/10 ≤ scoreOf (calculate_category_scores f) FoodCategory.preservative_heavy) := by
    intro f h
    rw [scoreOf_ph]
    simp only [preservative_score]
    rw [if_neg (by omega)]
    have hload : (get_fsi_parameters f).preservative_load ≤ 2/5 := by
      simp only [get_fsi_parameters]
      refine le_trans (min_le_right _ _) ?_
      have : (f.nutritional_info.preservatives.length : ℚ) ≤ 2 := by
        exact_mod_cast Nat.le_of_lt_succ h
      linarith
    push_neg
    calc (get_fsi_parameters f).preservative_load ≤ 2/5 := hload
      _ < 6/10 := by norm_num
  constructor
  · intro f hlen hmax hclose
    have hj := hmax FoodCategory.junk
    have hp := hmax FoodCategory.preservative_heavy
    rw [scoreOf_junk] at hj
    rw [scoreOf_ph] at hp
    rw [classify_category_eq]
    simp only [select_dominant_category]
    rw [if_neg (by omega), if_neg (hps f hlen)]
    have hwin : naive_winner (calculate_category_scores f) =
        (FoodCategory.healthy, healthy_score f) := by
      simp only [naive_winner, calculate_category_scores, pyMaxSnd]
      rw [if_neg (not_lt.2 hj), if_neg (not_lt.2 hp)]
    rw [hwin]
    rw [if_pos]
    constructor
    · rfl
    · rw [scoreOf_junk, abs_sub_comm]
      show |(healthy_score f - junk_score f)| < 15/100
      rw [abs_of_nonneg (by linarith)]
      linarith
  · intro f hnw
    rw [classify_category_eq]
    simp only [select_dominant_category]
    split_ifs with h1 h2 h3
    · intro h; cases h
    · intro h; cases h
    · intro h; cases h
    · exact hnw

theorem C6_witness : (classify_food foodTie).category = FoodCategory.junk := by
  apply C6_caution_tie_break.1 foodTie
  · decide
  · intro c
    cases c
    · rw [scoreOf_healthy]
    · rw [scoreOf_junk]
      norm_num [junk_score, healthy_score, get_fsi_parameters, foodTie, min_def]
    · rw [scoreOf_ph]
      norm_num [preservative_score, healthy_score, get_fsi_parameters, foodTie, min_def]
  · norm_num [healthy_score, junk_score, get_fsi_parameters, foodTie, min_def]

/-- C7: the retention level is the fixed banding (≤2 LOW, ≤5 MODERATE,
else HIGH) of (sum of qualifying factor impacts) × (body-type sensitivity
∈ {0.8, 1.0, 1.1, 1.3}); and on the scenario input (2500 mg sodium, 1000 ml
water, sleep 3/10 for 5 h, stress 8, ENDOMORPH) the level is HIGH with at
least 3 contributing factors and a primary factor among the qualifying
ones. -/
theorem C7_retention_formula_and_scenario :
    (∀ (l : LifestyleInput) (b : BodyType),
      (predict_retention l b).level =
        (if ((((qualifyingFactors l).map fun f => f.impact).sum : ℤ) : ℚ) *
              bodyTypeSensitivity b.classification ≤ 2 then RetentionLevel.low
         else if ((((qualifyingFactors l).map fun f => f.impact).sum : ℤ) : ℚ) *
              bodyTypeSensitivity b.classification ≤ 5 then RetentionLevel.moderate
         else RetentionLevel.high)) ∧
    (bodyTypeSensitivity BodyTypeClass.ectomorph = 8/10 ∧
     bodyTypeSensitivity BodyTypeClass.mesomorph = 1 ∧
     bodyTypeSensitivity BodyTypeClass.mixed = 11/10 ∧
     bodyTypeSensitivity BodyTypeClass.endomorph = 13/10) ∧
    ((predict_retention lifestyleScenario bodyEndo).level = RetentionLevel.high ∧
     3 ≤ (predict_retention lifestyleScenario bodyEndo).contributing_factors.length ∧
     (predict_retention lifestyleScenario bodyEndo).primary_factor.type ∈
       ((predict_retention lifestyleScenario bodyEndo).contributing_factors.map
         fun f => f.type)) := by
  refine ⟨?_, ⟨rfl, rfl, rfl, rfl⟩, ?_⟩
  · intro l b
    have hlvl : (predict_retention l b).level =
        (if ((((analyze_retention_factors l).map fun f => f.impact).sum : ℤ) : ℚ) *
              bodyTypeSensitivity b.classification ≤ 2 then RetentionLevel.low
         else if ((((analyze_retention_factors l).map fun f => f.impact).sum : ℤ) : ℚ) *
              bodyTypeSensitivity b.classification ≤ 5 then RetentionLevel.moderate
         else RetentionLevel.high) := rfl
    have hsum : ((analyze_retention_factors l).map fun f => f.impact).sum =
        ((qualifyingFactors l).map fun f => f.impact).sum :=
      List.Perm.sum_eq (List.Perm.map _ (List.perm_insertionSort _ _))
    rw [hlvl, hsum]
  · norm_num [predict_retention, analyze_retention_factors, qualifyingFactors,
      calculate_sodium_factor, calculate_hydration_factor, calculate_sleep_factor,
      calculate_stress_factor, lifestyleScenario, bodyEndo, bodyTypeSensitivity,
      List.insertionSort, List.orderedInsert, pyMaxFactor, List.filter]

/-! ## Alignment: dict building and last-write-wins -/

theorem buildDict_foldl (d : TimeSeries) (m : Timestamp → Option ℚ) (t : Timestamp) :
    (d.foldl (fun m p => fun u => if u = p.1 then some p.2 else m u) m) t =
      (match d.reverse.find? (fun p => p.1 == t) with
       | some p => some p.2
       | none => m t) := by
  induction d generalizing m with
  | nil => rfl
  | cons p rest ih =>
    rw [List.foldl_cons, ih, List.reverse_cons, List.find?_append]
    cases hf : rest.reverse.find? (fun q => q.1 == t) with
    | some q => simp [hf, Option.or]
    | none =>
      by_cases hpt : p.1 = t
      · simp [hf, Option.or, List.find?, hpt]
      · have hb : (p.1 == t) = false := beq_eq_false_iff_ne.2 hpt
        simp [hf, Option.or, List.find?, hb, hpt, Ne.symm hpt]

theorem buildDict_eq_lastVal (d : TimeSeries) (t : Timestamp) :
    buildDict d t = lastVal d t := by
  rw [buildDict, buildDict_foldl, lastVal]
  cases hf : d.reverse.find? (fun p => p.1 == t) <;> simp [hf]

theorem keys_nodup_eq {d : TimeSeries} (hnd : (d.map Prod.fst).Nodup)
    {p q : TimePoint} (hp : p ∈ d) (hq : q ∈ d) (h1 : p.1 = q.1) : p = q := by
  induction d with
  | nil => cases hp
  | cons a rest ih =>
    rw [List.map_cons, List.nodup_cons] at hnd
    rcases hnd with ⟨ha, hrest⟩
    cases hp with
    | head =>
      cases hq with
      | head => rfl
      | tail _ hq2 => exact absurd (h1 ▸ List.mem_map_of_mem Prod.fst hq2) ha
    | tail _ hp2 =>
      cases hq with
      | head => exact absurd (h1 ▸ List.mem_map_of_mem Prod.fst hp2) ha
      | tail _ hq2 => exact ih hrest hp2 hq2

theorem buildDict_of_nodup {d : TimeSeries} (hnd : (d.map Prod.fst).Nodup)
    {p : TimePoint} (hp : p ∈ d) : buildDict d p.1 = some p.2 := by
  rw [buildDict_eq_lastVal, lastVal]
  cases hf : d.reverse.find? (fun q => q.1 == p.1) with
  | none =>
    rw [List.find?_eq_none] at hf
    exact absurd (by simp) (hf p (List.mem_reverse.2 hp))
  | some q =>
    have hq : q ∈ d := List.mem_reverse.1 (List.mem_of_find?_eq_some hf)
    have hq1 : q.1 = p.1 := by simpa using List.find?_some hf
    have : q = p := keys_nodup_eq hnd hq hp hq1
    simp [this]

theorem valAt_of_nodup {d : TimeSeries} (hnd : (d.map Prod.fst).Nodup)
    {p : TimePoint} (hp : p ∈ d) : valAt d p.1 = p.2 := by
  rw [valAt, buildDict_of_nodup hnd hp]
  rfl

theorem lastVal_isSome_of_mem {d : TimeSeries} {t : Timestamp}
    (h : t ∈ d.map Prod.fst) : ∃ v, lastVal d t = some v := by
  rw [lastVal]
  cases hf : d.reverse.find? (fun q => q.1 == t) with
  | some q => exact ⟨q.2, rfl⟩
  | none =>
    rw [List.find?_eq_none] at hf
    rcases List.mem_map.1 h with ⟨p, hp, hpt⟩
    exact absurd (by simp [hpt]) (hf p (List.mem_reverse.2 hp))

theorem mem_commonTimestamps {d1 d2 : TimeSeries} {t : Timestamp} :
    t ∈ commonTimestamps d1 d2 ↔ t ∈ d1.map Prod.fst ∧ t ∈ d2.map Prod.fst := by
  rw [commonTimestamps, List.mem_insertionSort, List.mem_filter, List.mem_dedup]
  simp

/-- C10: the timestamp-to-value maps built for alignment are Python dict
comprehensions, so for a duplicated timestamp the value of the last
occurrence in the list wins; consequently each aligned triple carries the
last-occurrence values of its timestamp in both series. -/
theorem C10_last_write_wins :
    (∀ (d : TimeSeries) (t : Timestamp), buildDict d t = lastVal d t) ∧
    (∀ (d1 d2 : TimeSeries) (t : Timestamp) (x y : ℚ),
      (t, x, y) ∈ align_time_series d1 d2 →
      lastVal d1 t = some x ∧ lastVal d2 t = some y) := by
  refine ⟨buildDict_eq_lastVal, ?_⟩
  intro d1 d2 t x y hmem
  rw [align_time_series] at hmem
  rcases List.mem_map.1 hmem with ⟨u, hu, hequ⟩
  have ht : u = t := congrArg Prod.fst hequ
  subst ht
  have hx : valAt d1 u = x := congrArg (Prod.fst ∘ Prod.snd) hequ
  have hy : valAt d2 u = y := congrArg (Prod.snd ∘ Prod.snd) hequ
  rcases mem_commonTimestamps.1 hu with ⟨h1, h2⟩
  rcases lastVal_isSome_of_mem (d := d1) h1 with ⟨v1, hv1⟩
  rcases lastVal_isSome_of_mem (d := d2) h2 with ⟨v2, hv2⟩
  have e1 : valAt d1 u = v1 := by rw [valAt, buildDict_eq_lastVal, hv1]; rfl
  have e2 : valAt d2 u = v2 := by rw [valAt, buildDict_eq_lastVal, hv2]; rfl
  constructor
  · rw [hv1, ← e1, hx]
  · rw [hv2, ← e2, hy]

theorem C10_witness :
    lastVal dupSeries1 0 = some 2 ∧ lastVal dupSeries2 0 = some 3 :=
  C10_last_write_wins.2 dupSeries1 dupSeries2 0 2 3 (by decide)

/-! ## Trend detection on constant series -/

theorem olsDenominator_ne_zero {values : List ℚ} (h3 : 3 ≤ values.length) :
    olsDenominator values ≠ 0 := by
  intro h0
  rw [olsDenominator] at h0
  have hnn : ∀ x ∈ (indexList values.length).map
      (fun xi => (xi - mean (indexList values.length)) ^ 2), 0 ≤ x := by
    intro x hx
    rcases List.mem_map.1 hx with ⟨xi, _, rfl⟩
    exact sq_nonneg _
  have hm0 : (0 : ℚ) ∈ indexList values.length := by
    unfold indexList
    refine List.mem_map.2 ⟨0, ?_, ?_⟩
    · exact List.mem_range.2 (by omega)
    · norm_num
  have hmN : ((values.length - 1 : ℕ) : ℚ) ∈ indexList values.length := by
    unfold indexList
    have hNm : values.length - 1 ∈ List.range values.length := List.mem_range.2 (by omega)
    exact List.mem_map_of_mem (fun i : ℕ => (i : ℚ)) hNm
  have h0le : ((0 : ℚ) - mean (indexList values.length)) ^ 2 = 0 := by
    have hle := List.single_le_sum hnn _ (List.mem_map_of_mem
      (fun xi => (xi - mean (indexList values.length)) ^ 2) hm0)
    rw [h0] at hle
    exact le_antisymm hle (sq_nonneg _)
  have hNle : (((values.length - 1 : ℕ) : ℚ) - mean (indexList values.length)) ^ 2 = 0 := by
    have hle := List.single_le_sum hnn _ (List.mem_map_of_mem
      (fun xi => (xi - mean (indexList values.length)) ^ 2) hmN)
    rw [h0] at hle
    exact le_antisymm hle (sq_nonneg _)
  have e0 : mean (indexList values.length) = 0 := by
    have := sq_eq_zero_iff.1 h0le
    linarith
  have eN : ((values.length - 1 : ℕ) : ℚ) = mean (indexList values.length) := by
    have := sq_eq_zero_iff.1 hNle
    linarith
  have h2 : (2 : ℚ) ≤ ((values.length - 1 : ℕ) : ℚ) := by
    have hn : 2 ≤ values.length - 1 := by omega
    exact_mod_cast hn
  rw [eN, e0] at h2
  norm_num at h2

/-- C1 (amended): a series shorter than 3 yields no pattern; a constant
series of length at least 3 yields trend "decreasing" with confidence 50
(slope 0, zero variance, so the strict `|slope| < 0.1·stdev` test fails and
R² falls back to 0; the `denominator == 0` stable/95 branch is unreachable
for length ≥ 3 because the index variance is positive). -/
theorem C1_trend_minimum_sample :
    (∀ (m : String) (ts : TimeSeries) (tr : Timestamp × Timestamp),
      ts.length < 3 → detect_pattern m ts tr = none) ∧
    (∀ (m : String) (ts : TimeSeries) (tr : Timestamp × Timestamp) (c : ℚ),
      3 ≤ ts.length → (∀ p ∈ ts, p.2 = c) →
      detect_pattern m ts tr =
        some ⟨m, TrendType.decreasing, 50, patternDesc m "decreasing", tr⟩) := by
  constructor
  · intro m ts tr h
    rw [detect_pattern, if_pos h]
  · intro m ts tr c h3 hc
    have hlen : (ts.map Prod.snd).length = ts.length := List.length_map _ _
    have hvc : ∀ x ∈ ts.map Prod.snd, x = c := by
      intro x hx
      rcases List.mem_map.1 hx with ⟨p, hp, rfl⟩
      exact hc p hp
    have hne : ts.map Prod.snd ≠ [] := by
      intro h
      rw [h] at hlen
      simp at hlen
      omega
    have hmean : mean (ts.map Prod.snd) = c := mean_of_constant hne hvc
    have hnum : olsNumerator (ts.map Prod.snd) = 0 := by
      rw [olsNumerator]
      apply List.sum_eq_zero
      intro x hx
      rcases List.mem_map.1 hx with ⟨p, hp, rfl⟩
      have h2 : p.2 = c := hvc p.2 (List.of_mem_zip hp).2
      rw [hmean, h2]
      ring
    have hden : olsDenominator (ts.map Prod.snd) ≠ 0 :=
      olsDenominator_ne_zero (by omega)
    have hvar : sampleVar (ts.map Prod.snd) = 0 := by
      rw [sampleVar]
      have hz : ((ts.map Prod.snd).map fun v => (v - mean (ts.map Prod.snd)) ^ 2).sum = 0 := by
        apply List.sum_eq_zero
        intro x hx
        rcases List.mem_map.1 hx with ⟨v, hv2, rfl⟩
        rw [hmean, hvc v hv2]
        ring
      rw [hz, zero_div]
    have hsst : ssTot (ts.map Prod.snd) = 0 := by
      rw [ssTot]
      apply List.sum_eq_zero
      intro x hx
      rcases List.mem_map.1 hx with ⟨v, hv2, rfl⟩
      rw [hmean, hvc v hv2]
      ring
    rw [detect_pattern, if_neg (by omega), if_neg hden]
    have hslope : olsNumerator (ts.map Prod.snd) / olsDenominator (ts.map Prod.snd) = 0 := by
      rw [hnum, zero_div]
    simp only [hslope, hvar, hsst]
    norm_num
    rfl

theorem C1_witness :
    detect_pattern "m" shortSeries2 (0, 9) = none ∧
    detect_pattern "m" constSeries3 (0, 9) =
      some ⟨"m", TrendType.decreasing, 50, patternDesc "m" "decreasing", (0, 9)⟩ :=
  ⟨C1_trend_minimum_sample.1 "m" shortSeries2 (0, 9) (by decide),
   C1_trend_minimum_sample.2 "m" constSeries3 (0, 9) 5 (by decide) (by decide)⟩

theorem C1_counterexample :
    (detect_pattern "m" constSeries3 (0, 9)).map (fun p => (p.trend, p.confidence)) =
      some (TrendType.decreasing, 50) ∧
    TrendType.decreasing ≠ TrendType.stable ∧ (50 : ℚ) ≠ 95 := by
  refine ⟨?_, by decide, by norm_num⟩
  norm_num [detect_pattern, constSeries3, olsNumerator, olsDenominator, indexList,
    mean, sampleVar, ssTot, ssRes, List.range_succ]

/-! ## Change detection -/

theorem scanChange_eq_none {m : String} {base : ℚ} {l : TimeSeries} :
    scanChange m base l = none ↔ ∀ p ∈ l, ¬(3/10 < |p.2 - base| / base) := by
  induction l with
  | nil => simp [scanChange]
  | cons p rest ih =>
    rcases p with ⟨t, v⟩
    simp only [scanChange]
    split_ifs with h
    · constructor
      · intro hc
        cases hc
      · intro hall
        exact absurd h (hall (t, v) (List.mem_cons_self _ _))
    · rw [ih]
      constructor
      · intro hall q hq
        rcases List.mem_cons.1 hq with hq1 | hq2
        · rw [hq1]
          exact h
        · exact hall q hq2
      · intro hall q hq
        exact hall q (List.mem_cons_of_mem _ hq)

theorem scanChange_eq_some {m : String} {base : ℚ} {l : TimeSeries} {ch : Change}
    (h : scanChange m base l = some ch) :
    ∃ k, k < l.length ∧
      (∀ j, j < k → ¬(3/10 < |(l.getD j (0, 0)).2 - base| / base)) ∧
      3/10 < |(l.getD k (0, 0)).2 - base| / base ∧
      ch.change_point = (l.getD k (0, 0)).1 ∧
      ch.magnitude = (l.getD k (0, 0)).2 - base := by
  induction l with
  | nil => simp [scanChange] at h
  | cons p rest ih =>
    rcases p with ⟨t, v⟩
    simp only [scanChange] at h
    by_cases hq : 3/10 < |v - base| / base
    · rw [if_pos hq] at h
      have hch := (Option.some.inj h).symm
      refine ⟨0, by simp, fun j hj => absurd hj (by omega), ?_, ?_, ?_⟩
      · simp only [List.getD_cons_zero]
        exact hq
      · simp [hch]
      · simp [hch]
    · rw [if_neg hq] at h
      obtain ⟨k, hk, hall, hqk, hcp, hmg⟩ := ih h
      refine ⟨k + 1, by simpa using hk, ?_, ?_, ?_, ?_⟩
      · intro j hj
        cases j with
        | zero =>
          simp only [List.getD_cons_zero]
          exact hq
        | succ j2 =>
          rw [List.getD_cons_succ]
          exact hall j2 (by omega)
      · rw [List.getD_cons_succ]
        exact hqk
      · rw [List.getD_cons_succ]
        exact hcp
      · rw [List.getD_cons_succ]
        exact hmg

/-- C3 (amended with a positive baseline): a 14-point series whose first 7
points average to `V > 0` and whose last 7 points all equal `1.35·V` yields a
Change at the 8th point's timestamp with magnitude `0.35·V` and an
"increased" description; in general the detector reports exactly the first
point of the observation window whose `|value − baseline| / baseline`
exceeds 0.3. -/
theorem C3_change_threshold :
    (∀ (m : String) (a b : TimeSeries) (V : ℚ),
      a.length = 7 → b.length = 7 →
      mean (a.map Prod.snd) = V → 0 < V →
      (∀ p ∈ b, p.2 = 27/20 * V) →
      detect_significant_change m (a ++ b) =
        some ⟨m, ((a ++ b).map Prod.fst).getD 7 0, 7/20 * V,
          changeDesc m "increased" 35, []⟩) ∧
    (∀ (m : String) (ts : TimeSeries) (ch : Change),
      detect_significant_change m ts = some ch →
      ∃ i, ts.length / 2 ≤ i ∧ i < ts.length ∧
        3/10 < |(ts.map Prod.snd).getD i 0 - baselineOf ts| / baselineOf ts ∧
        (∀ j, ts.length / 2 ≤ j → j < i →
          ¬(3/10 < |(ts.map Prod.snd).getD j 0 - baselineOf ts| / baselineOf ts)) ∧
        ch.change_point = (ts.map Prod.fst).getD i 0 ∧
        ch.magnitude = (ts.map Prod.snd).getD i 0 - baselineOf ts) := by
  constructor
  · intro m a b V ha hb hm hV hbv
    have hlen : (a ++ b).length = 14 := by simp [ha, hb]
    have hbase : baselineOf (a ++ b) = V := by
      rw [baselineOf, hlen]
      have h1 : ((a ++ b).map Prod.snd).take (14 / 2) = a.map Prod.snd := by
        rw [List.map_append]
        have h7 : (14 : ℕ) / 2 = (a.map Prod.snd).length := by simp [ha]
        rw [h7, List.take_left]
      rw [h1, hm]
    have hdrop : (a ++ b).drop ((a ++ b).length / 2) = b := by
      rw [hlen]
      have h7 : (14 : ℕ) / 2 = a.length := by omega
      rw [h7, List.drop_left]
    have hcp : ((a ++ b).map Prod.fst).getD 7 0 = (b.getD 0 (0, 0)).1 := by
      rw [List.map_append, List.getD_eq_getElem?_getD,
        List.getElem?_append_right (by simp [ha]), List.getD_eq_getElem?_getD,
        List.getElem?_map]
      have h0 : 7 - (a.map Prod.fst).length = 0 := by simp [ha]
      rw [h0]
      cases hb0 : b[0]? with
      | none => simp
      | some q => simp
    rw [detect_significant_change, if_neg (by omega), hdrop, hbase,
      if_neg (ne_of_gt hV), hcp]
    rcases b with _ | ⟨⟨t, v⟩, rest⟩
    · simp at hb
    · have hv : v = 27/20 * V := hbv (t, v) (List.mem_cons_self _ _)
      have hpct : |v - V| / V = 7/20 := by
        rw [hv, show (27 : ℚ)/20 * V - V = 7/20 * V from by ring,
          abs_of_pos (by positivity), mul_div_assoc, div_self (ne_of_gt hV), mul_one]
      have hmag : v - V = 7/20 * V := by
        rw [hv]
        ring
      simp only [scanChange, List.getD_cons_zero]
      rw [hpct, if_pos (by norm_num), hmag,
        if_pos (show (0 : ℚ) < 7/20 * V by positivity),
        show (7 : ℚ)/20 * 100 = 35 from by norm_num,
        show ⌊(35 : ℚ)⌋ = 35 from by norm_num]
  · intro m ts ch h
    simp only [detect_significant_change] at h
    split_ifs at h with h7 hb0
    have hsome := scanChange_eq_some h
    obtain ⟨k, hk, hall, hqk, hcp, hmg⟩ := hsome
    have hklen : (ts.drop (ts.length / 2)).length = ts.length - ts.length / 2 :=
      List.length_drop _ _
    have hget : ∀ j, j < (ts.drop (ts.length / 2)).length →
        ((ts.drop (ts.length / 2)).getD j (0, 0)).2 =
          (ts.map Prod.snd).getD (ts.length / 2 + j) 0 ∧
        ((ts.drop (ts.length / 2)).getD j (0, 0)).1 =
          (ts.map Prod.fst).getD (ts.length / 2 + j) 0 := by
      intro j hj
      have hlt : ts.length / 2 + j < ts.length := by omega
      have hx : ts[ts.length / 2 + j]? = some ts[ts.length / 2 + j] :=
        List.getElem?_eq_getElem hlt
      constructor
      · rw [List.getD_eq_getElem?_getD, List.getElem?_drop, hx,
          List.getD_eq_getElem?_getD, List.getElem?_map, hx]
        rfl
      · rw [List.getD_eq_getElem?_getD, List.getElem?_drop, hx,
          List.getD_eq_getElem?_getD, List.getElem?_map, hx]
        rfl
    refine ⟨ts.length / 2 + k, by omega, by omega, ?_, ?_, ?_, ?_⟩
    · rw [← (hget k hk).1]
      exact hqk
    · intro j hj1 hj2
      have hj3 : j - ts.length / 2 < k := by omega
      have hx := hall (j - ts.length / 2) hj3
      rw [(hget (j - ts.length / 2) (by omega)).1] at hx
      have hjeq : ts.length / 2 + (j - ts.length / 2) = j := by omega
      rw [hjeq] at hx
      exact hx
    · rw [hcp, (hget k hk).2]
    · rw [hmg, (hget k hk).1]

theorem C3_witness :
    detect_significant_change "m" (baseHalf7 ++ stepHalf7) =
      some ⟨"m", ((baseHalf7 ++ stepHalf7).map Prod.fst).getD 7 0, 7/20 * 2,
        changeDesc "m" "increased" 35, []⟩ := by
  apply C3_change_threshold.1 "m" baseHalf7 stepHalf7 2
  · decide
  · decide
  · norm_num [baseHalf7, mean]
  · norm_num
  · intro p hp
    have h2 : (27 : ℚ)/20 * 2 = 27/10 := by norm_num
    rw [h2]
    simp only [stepHalf7, List.mem_cons, List.not_mem_nil, or_false] at hp
    rcases hp with rfl | rfl | rfl | rfl | rfl | rfl | rfl <;> rfl

theorem C3_counterexample :
    mean ((negSeries14.take 7).map Prod.snd) = -1 ∧ ((-1 : ℚ) ≠ 0) ∧
    negSeries14.length = 14 ∧
    (∀ p ∈ negSeries14.drop 7, p.2 = 27/20 * (-1)) ∧
    detect_significant_change "m" negSeries14 = none := by
  refine ⟨by norm_num [negSeries14, mean], by norm_num, by decide, ?_, ?_⟩
  · intro p hp
    have h2 : (27 : ℚ)/20 * (-1) = -(27/20) := by norm_num
    rw [h2]
    simp only [negSeries14, List.drop, List.mem_cons, List.not_mem_nil, or_false] at hp
    rcases hp with rfl | rfl | rfl | rfl | rfl | rfl | rfl <;> norm_num
  · norm_num [detect_significant_change, baselineOf, negSeries14, mean, scanChange]
    rw [show |(7 : ℚ)/20| = (7 : ℚ)/20 from abs_of_nonneg (by norm_num)]
    norm_num

/-! ## None-result characterization -/

theorem calc_zero_var_left {v1 v2 : List ℚ} (hl : v1.length = v2.length)
    (h3 : 2 ≤ v1.length) (hv : sampleVar v1 = 0) :
    calculate_correlation v1 v2 = ⟨0, 1⟩ := by
  rw [calculate_correlation, if_neg (by omega), if_pos (by rw [hv]; ring)]

theorem calc_zero_var_right {v1 v2 : List ℚ} (hl : v1.length = v2.length)
    (h3 : 2 ≤ v1.length) (hv : sampleVar v2 = 0) :
    calculate_correlation v1 v2 = ⟨0, 1⟩ := by
  rw [calculate_correlation, if_neg (by omega), if_pos (by rw [hv]; ring)]

/-- C9 (amended): each detector returns `none` exactly when a statistical
precondition fails — fewer than 3 points for the trend detector; fewer than
3 points in either series, fewer than 3 common timestamps, zero variance in
either aligned series, or encoded `|r| < 0.3` for correlation; fewer than 7
points, zero baseline, **or no observation point whose
`|value − baseline| / baseline` ratio exceeds 0.3** for change detection. -/
theorem C9_none_exactly_when :
    (∀ (m : String) (ts : TimeSeries) (tr : Timestamp × Timestamp),
      detect_pattern m ts tr = none ↔ ts.length < 3) ∧
    (∀ (m1 m2 : String) (d1 d2 : TimeSeries),
      detect_correlations m1 m2 d1 d2 = none ↔
        (d1.length < 3 ∨ d2.length < 3 ∨ (align_time_series d1 d2).length < 3 ∨
         sampleVar ((align_time_series d1 d2).map fun p => p.2.1) = 0 ∨
         sampleVar ((align_time_series d1 d2).map fun p => p.2.2) = 0 ∨
         (calculate_correlation ((align_time_series d1 d2).map fun p => p.2.1)
            ((align_time_series d1 d2).map fun p => p.2.2)).absLtQ (3/10))) ∧
    (∀ (m : String) (ts : TimeSeries),
      detect_significant_change m ts = none ↔
        (ts.length < 7 ∨ baselineOf ts = 0 ∨
         ∀ p ∈ ts.drop (ts.length / 2),
           ¬(3/10 < |p.2 - baselineOf ts| / baselineOf ts))) := by
  refine ⟨?_, ?_, ?_⟩
  · intro m ts tr
    rw [detect_pattern]
    by_cases h1 : ts.length < 3
    · simp [h1]
    · rw [if_neg h1]
      apply iff_of_false ?_ h1
      dsimp only
      split_ifs <;> simp
  · intro m1 m2 d1 d2
    have hlen1 : ((align_time_series d1 d2).map fun p => p.2.1).length =
        (align_time_series d1 d2).length := List.length_map _ _
    have hlen2 : ((align_time_series d1 d2).map fun p => p.2.2).length =
        (align_time_series d1 d2).length := List.length_map _ _
    simp only [detect_correlations]
    split_ifs with h1 h2 h3
    · exact iff_of_true rfl (by tauto)
    · exact iff_of_true rfl (by tauto)
    · exact iff_of_true rfl (by tauto)
    · apply iff_of_false (by simp)
      intro hdisj
      rcases hdisj with h | h | h | h | h | h
      · exact h1 (Or.inl h)
      · exact h1 (Or.inr h)
      · exact h2 h
      · apply h3
        rw [calc_zero_var_left (by rw [hlen1, hlen2]) (by omega) h]
        rw [StrengthRep.absLtQ]
        norm_num
      · apply h3
        rw [calc_zero_var_right (by rw [hlen1, hlen2]) (by omega) h]
        rw [StrengthRep.absLtQ]
        norm_num
      · exact h3 h
  · intro m ts
    simp only [detect_significant_change]
    split_ifs with h1 h2
    · exact iff_of_true rfl (Or.inl h1)
    · exact iff_of_true rfl (Or.inr (Or.inl h2))
    · rw [scanChange_eq_none]
      constructor
      · intro h
        exact Or.inr (Or.inr h)
      · intro hdisj
        rcases hdisj with h | h | h
        · exact absurd h h1
        · exact absurd h h2
        · exact h

theorem C9_counterexample :
    detect_significant_change "m" constSeries7 = none ∧
    ¬(constSeries7.length < 7) ∧ baselineOf constSeries7 ≠ 0 := by
  refine ⟨?_, by decide, by norm_num [baselineOf, constSeries7, mean]⟩
  norm_num [detect_significant_change, baselineOf, constSeries7, mean, scanChange]

/-! ## Correlation symmetry -/

theorem commonTimestamps_nodup (d1 d2 : TimeSeries) :
    (commonTimestamps d1 d2).Nodup := by
  rw [commonTimestamps]
  exact ((List.perm_insertionSort _ _).nodup_iff).2
    (List.Nodup.filter _ (List.nodup_dedup _))

theorem commonTimestamps_comm (d1 d2 : TimeSeries) :
    commonTimestamps d1 d2 = commonTimestamps d2 d1 := by
  apply List.eq_of_perm_of_sorted (r := (· ≤ · : Timestamp → Timestamp → Prop))
  · apply (List.perm_ext_iff_of_nodup (commonTimestamps_nodup d1 d2)
      (commonTimestamps_nodup d2 d1)).2
    intro a
    rw [mem_commonTimestamps, mem_commonTimestamps, and_comm]
  · exact List.sorted_insertionSort _ _
  · exact List.sorted_insertionSort _ _

theorem align_time_series_swap (d1 d2 : TimeSeries) :
    align_time_series d2 d1 =
      (align_time_series d1 d2).map fun x => (x.1, x.2.2, x.2.1) := by
  rw [align_time_series, align_time_series, commonTimestamps_comm d2 d1,
    List.map_map]
  rfl

theorem calculate_correlation_comm {v1 v2 : List ℚ} (h : v1.length = v2.length) :
    calculate_correlation v2 v1 = calculate_correlation v1 v2 := by
  have hnum : ((v2.zip v1).map fun p => (p.1 - mean v2) * (p.2 - mean v1)).sum =
      ((v1.zip v2).map fun p => (p.1 - mean v1) * (p.2 - mean v2)).sum := by
    rw [← List.zip_swap v1 v2, List.map_map]
    refine congrArg List.sum (List.map_congr_left fun p _ => ?_)
    simp only [Function.comp, Prod.fst_swap, Prod.snd_swap]
    ring
  rw [calculate_correlation, calculate_correlation]
  dsimp only
  rw [hnum, h, mul_comm (sampleVar v2) (sampleVar v1)]

theorem lookup_mem_keys {k : String × String} {c : CausalityLevel}
    {l : List ((String × String) × CausalityLevel)}
    (h : l.lookup k = some c) : k ∈ l.map Prod.fst := by
  induction l with
  | nil => simp [List.lookup] at h
  | cons p rest ih =>
    rcases p with ⟨k1, v1⟩
    by_cases hk : k = k1
    · simp [hk]
    · have hb : (k == k1) = false := beq_eq_false_iff_ne.2 hk
      rw [List.lookup, hb] at h
      exact List.mem_cons_of_mem _ (ih h)

theorem causalPairs_no_reverse {a b : String} {c c2 : CausalityLevel}
    (h1 : causalPairs.lookup (a, b) = some c)
    (h2 : causalPairs.lookup (b, a) = some c2) : False := by
  have hk1 := lookup_mem_keys h1
  have hk2 := lookup_mem_keys h2
  simp only [causalPairs, List.map_cons, List.map_nil, List.mem_cons,
    List.not_mem_nil, or_false, Prod.mk.injEq] at hk1 hk2
  rcases hk1 with ⟨rfl, rfl⟩ | ⟨rfl, rfl⟩ | ⟨rfl, rfl⟩ | ⟨rfl, rfl⟩ | ⟨rfl, rfl⟩ <;>
    simp_all

theorem assess_causality_comm (m1 m2 : String) (s : StrengthRep) :
    assess_causality m2 m1 s = assess_causality m1 m2 s := by
  rw [assess_causality, assess_causality]
  cases h1 : causalPairs.lookup (lowerStr m1, lowerStr m2) with
  | some c =>
    cases h2 : causalPairs.lookup (lowerStr m2, lowerStr m1) with
    | some c2 => exact (causalPairs_no_reverse h2 h1).elim
    | none => simp [h1, h2]
  | none =>
    cases h2 : causalPairs.lookup (lowerStr m2, lowerStr m1) with
    | some c2 => simp [h1, h2]
    | none => simp [h1, h2]

/-- C8: correlation detection is symmetric in its two series arguments —
both orders return a Correlation together, with the same exact strength
representation and the same causality label (the curated pair table is
consulted under both orderings and contains no reversed pair). -/
theorem C8_correlation_symmetry :
    ∀ (m1 m2 : String) (d1 d2 : TimeSeries),
      (detect_correlations m1 m2 d1 d2).map (fun c => (c.strength, c.causality)) =
      (detect_correlations m2 m1 d2 d1).map (fun c => (c.strength, c.causality)) := by
  intro m1 m2 d1 d2
  have halign := align_time_series_swap d1 d2
  have hlen : (align_time_series d2 d1).length = (align_time_series d1 d2).length := by
    rw [halign, List.length_map]
  have hv1 : (align_time_series d2 d1).map (fun p => p.2.1) =
      (align_time_series d1 d2).map (fun p => p.2.2) := by
    rw [halign, List.map_map]
    rfl
  have hv2 : (align_time_series d2 d1).map (fun p => p.2.2) =
      (align_time_series d1 d2).map (fun p => p.2.1) := by
    rw [halign, List.map_map]
    rfl
  have hcalc : calculate_correlation ((align_time_series d1 d2).map fun p => p.2.2)
      ((align_time_series d1 d2).map fun p => p.2.1) =
      calculate_correlation ((align_time_series d1 d2).map fun p => p.2.1)
        ((align_time_series d1 d2).map fun p => p.2.2) :=
    calculate_correlation_comm (by rw [List.length_map, List.length_map])
  have hass : ∀ s, assess_causality m2 m1 s = assess_causality m1 m2 s :=
    assess_causality_comm m1 m2
  rw [detect_correlations, detect_correlations]
  by_cases h1 : d1.length < 3 ∨ d2.length < 3
  · have h1s : d2.length < 3 ∨ d1.length < 3 := h1.symm
    rw [if_pos h1, if_pos h1s]
  · have h1s : ¬(d2.length < 3 ∨ d1.length < 3) := fun hx => h1 hx.symm
    rw [if_neg h1, if_neg h1s]
    dsimp only
    simp only [hlen, hv1, hv2, hcalc, hass]
    split_ifs <;> rfl

/-! ## Correlation on an exactly doubled series -/

theorem ssTot_eq (values : List ℚ) :
    ssTot values = (values.map fun v => (v - mean values) ^ 2).sum := rfl

theorem ssTot_pos {vs : List ℚ} (hnc : ∃ x ∈ vs, x ≠ mean vs) : 0 < ssTot vs := by
  rcases hnc with ⟨x, hx, hxne⟩
  have hmem : (x - mean vs) ^ 2 ∈ vs.map fun v => (v - mean vs) ^ 2 :=
    List.mem_map_of_mem _ hx
  have hnn : ∀ y ∈ vs.map fun v => (v - mean vs) ^ 2, (0 : ℚ) ≤ y := by
    intro y hy
    rcases List.mem_map.1 hy with ⟨v, _, rfl⟩
    exact sq_nonneg _
  have hxpos : 0 < (x - mean vs) ^ 2 :=
    lt_of_le_of_ne (sq_nonneg _) (Ne.symm (pow_ne_zero 2 (sub_ne_zero.2 hxne)))
  calc (0 : ℚ) < (x - mean vs) ^ 2 := hxpos
    _ ≤ (vs.map fun v => (v - mean vs) ^ 2).sum := List.single_le_sum hnn _ hmem
    _ = ssTot vs := (ssTot_eq vs).symm

theorem calculate_correlation_doubled {vs : List ℚ} (hlen : vs.length = 10)
    (hpos : 0 < ssTot vs) :
    calculate_correlation vs (vs.map fun v : ℚ => 2 * v) =
      ⟨2 * ssTot vs, 400 * (ssTot vs) ^ 2 / 81⟩ := by
  have hmlen : (vs.map fun v : ℚ => 2 * v).length = vs.length := List.length_map _ _
  have hsum2 : (vs.map fun v : ℚ => 2 * v).sum = 2 * vs.sum := by
    simpa using List.sum_map_mul_left vs (fun x => x) 2
  have hmean2 : mean (vs.map fun v : ℚ => 2 * v) = 2 * mean vs := by
    rw [mean, mean, hmlen, hsum2, mul_div_assoc]
  have hzip : vs.zip (vs.map fun v : ℚ => 2 * v) = vs.map fun a => (a, 2 * a) := by
    have h := List.zip_map' (fun x : ℚ => x) (fun v : ℚ => 2 * v) vs
    rwa [List.map_id'] at h
  have hnum : ((vs.zip (vs.map fun v : ℚ => 2 * v)).map
      fun p => (p.1 - mean vs) * (p.2 - mean (vs.map fun v : ℚ => 2 * v))).sum =
      2 * ssTot vs := by
    rw [hzip, hmean2, List.map_map]
    have hfun : ((fun p : ℚ × ℚ => (p.1 - mean vs) * (p.2 - 2 * mean vs)) ∘
        fun a : ℚ => (a, 2 * a)) = fun a : ℚ => 2 * ((a - mean vs) ^ 2) := by
      funext a
      simp only [Function.comp_apply]
      ring
    rw [hfun, List.sum_map_mul_left vs (fun a => (a - mean vs) ^ 2) 2, ← ssTot_eq]
  have hvar1 : sampleVar vs = ssTot vs / 9 := by
    rw [sampleVar, ← ssTot_eq, hlen]
    norm_num
  have hvar2 : sampleVar (vs.map fun v : ℚ => 2 * v) = 4 * ssTot vs / 9 := by
    rw [sampleVar, hmlen, hlen, hmean2, List.map_map]
    have hfun : ((fun v : ℚ => (v - 2 * mean vs) ^ 2) ∘ fun v : ℚ => 2 * v) =
        fun a : ℚ => 4 * ((a - mean vs) ^ 2) := by
      funext a
      simp only [Function.comp_apply]
      ring
    rw [hfun, List.sum_map_mul_left vs (fun a => (a - mean vs) ^ 2) 4, ← ssTot_eq]
    norm_num
  rw [calculate_correlation, if_neg (by rw [hmlen]; omega)]
  dsimp only
  rw [hnum, hvar1, hvar2, hlen]
  have hfin : ssTot vs / 9 * (4 * ssTot vs / 9) * (((10 : ℕ) : ℚ)) ^ 2 =
      400 * (ssTot vs) ^ 2 / 81 := by
    push_cast
    ring
  rw [hfin, if_neg (by positivity)]

theorem detect_doubled (d1 : TimeSeries) (m1 m2 : String)
    (hlen : d1.length = 10)
    (hsort : (d1.map Prod.fst).Sorted (· < ·))
    (hnc : ∃ x ∈ d1.map Prod.snd, x ≠ mean (d1.map Prod.snd)) :
    detect_correlations m1 m2 d1 (d1.map fun p => (p.1, 2 * p.2)) =
      some ⟨m1, m2,
        ⟨2 * ssTot (d1.map Prod.snd), 400 * (ssTot (d1.map Prod.snd)) ^ 2 / 81⟩,
        corrDesc "strong" "positive" m1 m2,
        assess_causality m1 m2
          ⟨2 * ssTot (d1.map Prod.snd), 400 * (ssTot (d1.map Prod.snd)) ^ 2 / 81⟩⟩ := by
  have hS := ssTot_pos hnc
  have hnd : (d1.map Prod.fst).Nodup := hsort.nodup
  have hkeys2 : ((d1.map fun p => (p.1, 2 * p.2)).map Prod.fst) = d1.map Prod.fst := by
    rw [List.map_map]
    rfl
  have hcommon : commonTimestamps d1 (d1.map fun p => (p.1, 2 * p.2)) = d1.map Prod.fst := by
    rw [commonTimestamps, hkeys2, List.dedup_eq_self.2 hnd,
      List.filter_eq_self.2 (by intro a ha; simpa using ha),
      List.Sorted.insertionSort_eq (hsort.imp fun h => le_of_lt h)]
  have hnd2 : ((d1.map fun p => (p.1, 2 * p.2)).map Prod.fst).Nodup := by
    rw [hkeys2]
    exact hnd
  have halign : align_time_series d1 (d1.map fun p => (p.1, 2 * p.2)) =
      d1.map fun p => (p.1, p.2, 2 * p.2) := by
    rw [align_time_series, hcommon, List.map_map]
    apply List.map_congr_left
    intro p hp
    have v1 : valAt d1 p.1 = p.2 := valAt_of_nodup hnd hp
    have hp2 : (p.1, 2 * p.2) ∈ d1.map fun p => (p.1, 2 * p.2) :=
      List.mem_map_of_mem _ hp
    have v2 : valAt (d1.map fun p => (p.1, 2 * p.2)) p.1 = 2 * p.2 :=
      valAt_of_nodup hnd2 hp2
    simp only [Function.comp_apply]
    rw [v1, v2]
  have hal_len : (align_time_series d1 (d1.map fun p => (p.1, 2 * p.2))).length = 10 := by
    rw [halign, List.length_map, hlen]
  have hvalues1 : (align_time_series d1 (d1.map fun p => (p.1, 2 * p.2))).map
      (fun p => p.2.1) = d1.map Prod.snd := by
    rw [halign, List.map_map]
    rfl
  have hvalues2 : (align_time_series d1 (d1.map fun p => (p.1, 2 * p.2))).map
      (fun p => p.2.2) = (d1.map Prod.snd).map (fun v : ℚ => 2 * v) := by
    rw [halign, List.map_map, List.map_map]
    rfl
  have hcalc := @calculate_correlation_doubled (d1.map Prod.snd)
    (by rw [List.length_map, hlen]) hS
  rw [detect_correlations, if_neg (by rw [List.length_map]; omega)]
  dsimp only
  rw [hvalues1, hvalues2, hcalc, if_neg (by rw [hal_len]; norm_num)]
  have hthr : ¬ (StrengthRep.absLtQ
      ⟨2 * ssTot (d1.map Prod.snd), 400 * (ssTot (d1.map Prod.snd)) ^ 2 / 81⟩ (3/10)) := by
    rw [StrengthRep.absLtQ]
    push_neg
    nlinarith [sq_nonneg (ssTot (d1.map Prod.snd))]
  rw [if_neg hthr]
  have hgt : StrengthRep.absGtQ
      ⟨2 * ssTot (d1.map Prod.snd), 400 * (ssTot (d1.map Prod.snd)) ^ 2 / 81⟩ (7/10) := by
    rw [StrengthRep.absGtQ]
    nlinarith [pow_pos hS 2]
  rw [if_pos hgt, if_pos (show (0 : ℚ) < 2 * ssTot (d1.map Prod.snd) by linarith)]

/-- C2 (amended): for a 10-point series with strictly increasing timestamps
and `B = 2·A` exactly (zero noise, within the `±0.1` bound; `A`
non-constant), `detect_correlations` returns a Correlation whose strength is
exactly `0.9` — never more, since the code divides by `n·σx·σy` with sample
`σ`, making the value `(n−1)/n · r ≤ 0.9` for `n = 10` — and whose causality
is "possible" or a curated domain-pair label. -/
theorem C2_correlation_scenario :
    ∀ (d1 : TimeSeries) (m1 m2 : String),
      d1.length = 10 → (d1.map Prod.fst).Sorted (· < ·) →
      (∃ x ∈ d1.map Prod.snd, x ≠ mean (d1.map Prod.snd)) →
      ∃ corr, detect_correlations m1 m2 d1 (d1.map fun p => (p.1, 2 * p.2)) = some corr ∧
        corr.strength.eqQ (9/10) ∧ ¬ corr.strength.gtQ (9/10) ∧
        (corr.causality = CausalityLevel.possible ∨
         causalPairs.lookup (lowerStr m1, lowerStr m2) = some corr.causality ∨
         causalPairs.lookup (lowerStr m2, lowerStr m1) = some corr.causality) := by
  intro d1 m1 m2 hlen hsort hnc
  have hS := ssTot_pos hnc
  have hd := detect_doubled d1 m1 m2 hlen hsort hnc
  refine ⟨_, hd, ?_, ?_, ?_⟩
  · constructor
    · show (0 : ℚ) ≤ 2 * ssTot (d1.map Prod.snd)
      linarith
    · show (2 * ssTot (d1.map Prod.snd)) ^ 2 =
        (9/10 : ℚ) ^ 2 * (400 * (ssTot (d1.map Prod.snd)) ^ 2 / 81)
      ring
  · rintro ⟨-, h⟩
    have he : (9/10 : ℚ) ^ 2 * (400 * (ssTot (d1.map Prod.snd)) ^ 2 / 81) =
        (2 * ssTot (d1.map Prod.snd)) ^ 2 := by ring
    rw [he] at h
    exact lt_irrefl _ h
  · have hgt7 : StrengthRep.absGtQ
        ⟨2 * ssTot (d1.map Prod.snd), 400 * (ssTot (d1.map Prod.snd)) ^ 2 / 81⟩
        (7/10) := by
      rw [StrengthRep.absGtQ]
      show (7/10 : ℚ) ^ 2 * (400 * (ssTot (d1.map Prod.snd)) ^ 2 / 81) <
        (2 * ssTot (d1.map Prod.snd)) ^ 2
      nlinarith [pow_pos hS 2]
    cases hL1 : causalPairs.lookup (lowerStr m1, lowerStr m2) with
    | some c =>
      have hval : assess_causality m1 m2
          ⟨2 * ssTot (d1.map Prod.snd), 400 * (ssTot (d1.map Prod.snd)) ^ 2 / 81⟩ = c := by
        rw [assess_causality, hL1]
      refine Or.inr (Or.inl ?_)
      exact congrArg some hval.symm
    | none =>
      cases hL2 : causalPairs.lookup (lowerStr m2, lowerStr m1) with
      | some c =>
        have hval : assess_causality m1 m2
            ⟨2 * ssTot (d1.map Prod.snd), 400 * (ssTot (d1.map Prod.snd)) ^ 2 / 81⟩ = c := by
          rw [assess_causality, hL1, hL2]
        refine Or.inr (Or.inr ?_)
        exact congrArg some hval.symm
      | none =>
        have hval : assess_causality m1 m2
            ⟨2 * ssTot (d1.map Prod.snd), 400 * (ssTot (d1.map Prod.snd)) ^ 2 / 81⟩ =
            CausalityLevel.possible := by
          rw [assess_causality, hL1, hL2, if_pos hgt7]
        exact Or.inl hval

theorem C2_witness :
    ∃ corr, detect_correlations "a" "b" seriesA
        (seriesA.map fun p => (p.1, 2 * p.2)) = some corr ∧
      corr.strength.eqQ (9/10) ∧ ¬ corr.strength.gtQ (9/10) ∧
      (corr.causality = CausalityLevel.possible ∨
       causalPairs.lookup (lowerStr "a", lowerStr "b") = some corr.causality ∨
       causalPairs.lookup (lowerStr "b", lowerStr "a") = some corr.causality) :=
  C2_correlation_scenario seriesA "a" "b" (by decide) (by decide)
    ⟨0, by norm_num [seriesA], by norm_num [seriesA, mean]⟩

theorem C2_counterexample :
    seriesB = seriesA.map (fun p => (p.1, 2 * p.2)) ∧
    (detect_correlations "a" "b" seriesA seriesB).map (fun c => c.strength) =
      some ⟨165, 2722500/81⟩ ∧
    ¬ (StrengthRep.gtQ ⟨165, 2722500/81⟩ (9/10)) ∧
    StrengthRep.eqQ ⟨165, 2722500/81⟩ (9/10) := by
  have hB : seriesB = seriesA.map (fun p => (p.1, 2 * p.2)) := by
    norm_num [seriesA, seriesB]
  have hS : ssTot (seriesA.map Prod.snd) = 165/2 := by
    norm_num [ssTot_eq, mean, seriesA]
  have hd := detect_doubled seriesA "a" "b" (by decide) (by decide)
    ⟨0, by norm_num [seriesA], by norm_num [seriesA, mean]⟩
  refine ⟨hB, ?_, ?_, ?_⟩
  · rw [hB, hd]
    show some (⟨2 * ssTot (seriesA.map Prod.snd),
        400 * (ssTot (seriesA.map Prod.snd)) ^ 2 / 81⟩ : StrengthRep) =
      some ⟨165, 2722500/81⟩
    rw [hS]
    norm_num [StrengthRep.mk.injEq]
  · rintro ⟨-, h⟩
    rw [show (9/10 : ℚ) ^ 2 * (2722500/81) = (165 : ℚ) ^ 2 from by norm_num] at h
    exact lt_irrefl _ h
  · constructor
    · norm_num
    · norm_num
